import Mathlib

/-!
Verification of the pdfcraft document-to-PDF conversion pipeline.

The source consists of four web workers which run embedded Python
(`src/public/workers/{rtf,excel,word,pptx}-to-pdf.worker.js`).  The Python
conversion functions are shallowly embedded here:

* strings are `List Char` or `String`,
* byte buffers are `List (Fin 256)`,
* geometry is exact rational arithmetic (`ℚ`) mirroring the Python float
  expressions, which are all small decimal constants (`1.4 = 7/5`, …),
* PDF draw calls (`insert_text`, `insert_textbox`, `insert_image`) become
  `DrawCmd` values tagged with the index of the page they are issued on;
  the PyMuPDF backend itself is an external collaborator and is assumed
  not to raise,
* Python exceptions become `Except`: `zipfile.ZipFile`'s `BadZipFile` for a
  corrupt buffer is the stdlib's documented contract and enters the model
  as the `Except.error` constructor of each converter's input,
* a structural unit (worksheet, slide, body element) whose XML parsing or
  library accessors raise is modelled as an `Except.error msg` unit value;
  the converters' own `try`/`except` placement is translated faithfully.

Each Python regex pass of the RTF text extractor is embedded as a character
scanner with the exact leftmost / greedy semantics of the pattern, including
Python's replacement-template parsing (a lone trailing backslash in a
replacement template is rejected with re.error "bad escape (end of pattern)"
before any matching happens).
-/

namespace PdfCraft

/-- A draw command issued to the PDF backend, tagged with the index of the
page it is issued on.  `text` carries position, string, fontsize and whether
the call passed the red error color; `textbox` carries the bounding rect;
`image` carries the target rect. -/
inductive DrawCmd
  | text (page : Nat) (x y : ℚ) (s : String) (fontsize : ℚ) (red : Bool)
  | textbox (page : Nat) (x0 y0 x1 y1 : ℚ) (s : String) (fontsize : ℚ)
  | image (page : Nat) (x0 y0 x1 y1 : ℚ)
deriving DecidableEq

/-- The page index a draw command is issued on. -/
def DrawCmd.page : DrawCmd → Nat
  | DrawCmd.text pg _ _ _ _ _ => pg
  | DrawCmd.textbox pg _ _ _ _ _ _ => pg
  | DrawCmd.image pg _ _ _ _ => pg

/-- `zipfile.BadZipFile`: the stdlib raises this when the byte buffer is not
a structurally valid zip archive.  A converter input of `Except.error z`
models a buffer on which `zipfile.ZipFile` (resp. `python-docx`'s zip
opening) raised. -/
structure BadZipFile where
  msg : String
deriving DecidableEq

/-- `Except.isOk` as a plain boolean. -/
def isOkB : Except ε α → Bool
  | Except.ok _ => true
  | Except.error _ => false

/-- The draw commands of a successful conversion result (empty on error). -/
def convCmds : Except ε (Nat × List DrawCmd) → List DrawCmd
  | Except.ok r => r.2
  | Except.error _ => []

/-! ## RTF text extraction (`rtf-to-pdf.worker.js`, `strip_rtf`, lines 42-52)

The worker's JS template literal passes this Python to `runPython` (after JS
`\\` unescaping):

    text = re.sub(r'\\[a-z]+\d* ?', '', text)
    text = re.sub(r'[{}]', '', text)
    text = re.sub(r'\\\\', '\\', text)
    text = re.sub(r"\\'([0-9a-fA-F]{2})", lambda m: chr(int(m.group(1), 16)), text)
    text = re.sub(r'\n+', '\n', text)
    text = text.strip()

Note the third call's replacement string is `'\\'`, i.e. a single backslash
character. -/

/-- Python `str.split()` / `str.strip()` whitespace set. -/
def isPySpace (c : Char) : Bool :=
  c == ' ' || c == '\t' || c == '\n' || c == '\r' || c == '\x0b' || c == '\x0c'

/-- Python `str.strip()` on a character list. -/
def pyStripChars (l : List Char) : List Char :=
  ((l.dropWhile isPySpace).reverse.dropWhile isPySpace).reverse

/-- Drop one leading space, if present (the `' ?'` of the control-word
pattern). -/
def dropOneSpace : List Char → List Char
  | ' ' :: rest => rest
  | l => l

/-- Fueled scanner for `re.sub(r'\\[a-z]+\d* ?', '', text)`: at each
position, a backslash followed by at least one ASCII lowercase letter
consumes the maximal letter run, then the maximal digit run, then one
optional space, and emits nothing; any other character is emitted.  The
character classes of the pattern are disjoint, so maximal munching is
exactly the regex's greedy semantics.  Each step consumes at least one
character, so fuel = input length always suffices. -/
def stripCWfuel : Nat → List Char → List Char
  | 0, l => l
  | _ + 1, [] => []
  | fuel + 1, '\\' :: c :: rest =>
    if c.isLower then
      stripCWfuel fuel
        (dropOneSpace (((c :: rest).dropWhile Char.isLower).dropWhile Char.isDigit))
    else '\\' :: stripCWfuel fuel (c :: rest)
  | fuel + 1, c :: rest => c :: stripCWfuel fuel rest

/-- First pass of `strip_rtf`: remove control words. -/
def stripControlWords (l : List Char) : List Char :=
  stripCWfuel l.length l

/-- Second pass: `re.sub(r'[{}]', '', text)` — remove literal braces. -/
def stripBraces (l : List Char) : List Char :=
  l.filter (fun c => !(c == '\x7b' || c == '\x7d'))

/-- Error raised by Python's `re` module when a replacement template is
malformed. -/
inductive RegexError
  | badEscape
deriving DecidableEq

/-- Python replacement-template parsing (`re._parser.parse_template`),
restricted to the escapes that occur in this repository's templates: `\\`
denotes a literal backslash, a backslash at the end of the template raises
re.error "bad escape (end of pattern)", and any other backslash escape
(none occurs here) is conservatively rejected as well. -/
def parseReplTemplate : List Char → Option (List Char)
  | [] => some []
  | ['\\'] => none
  | '\\' :: '\\' :: rest => (parseReplTemplate rest).map (fun r => '\\' :: r)
  | '\\' :: _ :: _ => none
  | c :: rest => (parseReplTemplate rest).map (fun r => c :: r)

/-- Replace every occurrence of two consecutive backslashes (the pattern
`r'\\\\'`) by the parsed replacement. -/
def replaceDoubleBackslash (repl : List Char) : List Char → List Char
  | '\\' :: '\\' :: rest => repl ++ replaceDoubleBackslash repl rest
  | c :: rest => c :: replaceDoubleBackslash repl rest
  | [] => []

/-- `re.sub(r'\\\\', template, text)`: CPython compiles the replacement
template before scanning the subject (a template containing a backslash is
handed to the template compiler unconditionally), so a malformed template
raises even when the pattern never matches. -/
def subDoubleBackslash (replTpl : List Char) (text : List Char) :
    Except RegexError (List Char) :=
  match parseReplTemplate replTpl with
  | none => Except.error RegexError.badEscape
  | some repl => Except.ok (replaceDoubleBackslash repl text)

/-- Value of a hexadecimal digit character, per the class `[0-9a-fA-F]`. -/
def hexVal (c : Char) : Option Nat :=
  if c.isDigit then some (c.toNat - 48)
  else if 'a' ≤ c ∧ c ≤ 'f' then some (c.toNat - 87)
  else if 'A' ≤ c ∧ c ≤ 'F' then some (c.toNat - 55)
  else none

/-- Fourth pass: `re.sub(r"\\'([0-9a-fA-F]{2})", chr ∘ hex, text)` — decode
`\'XX` hexadecimal character escapes.  Where the pattern fails to match at a
backslash, the scan advances one character, as the regex engine does. -/
def decodeHexEscapes : List Char → List Char
  | '\\' :: '\'' :: a :: b :: rest =>
    (match hexVal a, hexVal b with
     | some ha, some hb => Char.ofNat (ha * 16 + hb) :: decodeHexEscapes rest
     | _, _ => '\\' :: decodeHexEscapes ('\'' :: a :: b :: rest))
  | c :: rest => c :: decodeHexEscapes rest
  | [] => []

/-- Fifth pass: `re.sub(r'\n+', '\n', text)` — collapse newline runs. -/
def collapseNewlines : List Char → List Char
  | '\n' :: '\n' :: rest => collapseNewlines ('\n' :: rest)
  | c :: rest => c :: collapseNewlines rest
  | [] => []

/-- The replacement string of the third pass as the worker's Python source
has it: the two JS-escaped backslashes `'\\\\'` reach Python as `'\\'`, a
single backslash character. -/
def srcReplTemplate : List Char := ['\\']

/-- `strip_rtf` exactly as the interpreter executes the worker's Python
source: the first two passes succeed, the third pass
`re.sub(r'\\\\', '\\', text)` raises re.error "bad escape (end of pattern)"
because its replacement template is a lone backslash. -/
def strip_rtf (text : List Char) : Except RegexError (List Char) :=
  let t1 := stripControlWords text
  let t2 := stripBraces t1
  match subDoubleBackslash srcReplTemplate t2 with
  | Except.error e => Except.error e
  | Except.ok t3 => Except.ok (pyStripChars (collapseNewlines (decodeHexEscapes t3)))

/-- Modelled from the spec: the same pass sequence with the escaped-backslash
collapse written as the spec describes ("collapse escaped backslashes to a
single backslash"), i.e. with the well-formed replacement template `\\`
denoting one literal backslash.  Used to state what the extraction would
return absent the template bug. -/
def strip_rtf_intended (text : List Char) : Except RegexError (List Char) :=
  let t1 := stripControlWords text
  let t2 := stripBraces t1
  match subDoubleBackslash ['\\', '\\'] t2 with
  | Except.error e => Except.error e
  | Except.ok t3 => Except.ok (pyStripChars (collapseNewlines (decodeHexEscapes t3)))

/-! ## RTF byte decoding and full conversion (`rtf-to-pdf.worker.js`, lines 54-119)

    try: rtf_text = input_bytes.decode('utf-8')
    except: rtf_text = input_bytes.decode('latin-1')
-/

/-- UTF-8 continuation byte predicate (`0x80..0xBF`). -/
def isCont (b : Fin 256) : Bool := 0x80 ≤ b.val && b.val < 0xC0

/-- Strict UTF-8 decoding as Python's `bytes.decode('utf-8')` performs it:
rejects stray continuation bytes, overlong encodings (`C0`/`C1` leads, `E0`
with a second byte below `A0`, `F0` with a second byte below `90`), encoded
surrogates (`ED` with a second byte at or above `A0`), leads above `F4`, and
`F4` sequences above `U+10FFFF`. -/
def utf8Decode : List (Fin 256) → Option (List Char)
  | [] => some []
  | b :: rest =>
    if b.val < 0x80 then
      (utf8Decode rest).map (fun cs => Char.ofNat b.val :: cs)
    else if b.val < 0xC2 then none
    else if b.val < 0xE0 then
      match rest with
      | b2 :: rest2 =>
        if isCont b2 then
          (utf8Decode rest2).map
            (fun cs => Char.ofNat ((b.val - 0xC0) * 64 + (b2.val - 0x80)) :: cs)
        else none
      | [] => none
    else if b.val < 0xF0 then
      match rest with
      | b2 :: b3 :: rest3 =>
        if isCont b2 = true ∧ isCont b3 = true ∧ (b.val = 0xE0 → 0xA0 ≤ b2.val) ∧
            (b.val = 0xED → b2.val < 0xA0) then
          (utf8Decode rest3).map
            (fun cs =>
              Char.ofNat ((b.val - 0xE0) * 4096 + (b2.val - 0x80) * 64 + (b3.val - 0x80)) :: cs)
        else none
      | _ => none
    else if b.val < 0xF5 then
      match rest with
      | b2 :: b3 :: b4 :: rest4 =>
        if isCont b2 = true ∧ isCont b3 = true ∧ isCont b4 = true ∧
            (b.val = 0xF0 → 0x90 ≤ b2.val) ∧ (b.val = 0xF4 → b2.val < 0x90) then
          (utf8Decode rest4).map
            (fun cs =>
              Char.ofNat ((b.val - 0xF0) * 262144 + (b2.val - 0x80) * 4096 +
                (b3.val - 0x80) * 64 + (b4.val - 0x80)) :: cs)
        else none
      | _ => none
    else none

/-- `bytes.decode('latin-1')`: every byte maps to the character at its own
code point; this codec is total on bytes. -/
def latin1Decode (bs : List (Fin 256)) : List Char :=
  bs.map (fun b => Char.ofNat b.val)

/-- Python `UnicodeDecodeError`. -/
inductive DecodeError
  | unicodeDecodeFailed
deriving DecidableEq

/-- `input_bytes.decode('utf-8')` as a fallible step. -/
def pyDecodeUtf8 (bs : List (Fin 256)) : Except DecodeError (List Char) :=
  match utf8Decode bs with
  | some cs => Except.ok cs
  | none => Except.error DecodeError.unicodeDecodeFailed

/-- `input_bytes.decode('latin-1')` as a fallible step (it never fails on
byte input). -/
def pyDecodeLatin1 (bs : List (Fin 256)) : Except DecodeError (List Char) :=
  Except.ok (latin1Decode bs)

/-- The worker's decode step: try UTF-8, and on any decode failure fall back
to Latin-1 (`try/except` at lines 62-65). -/
def rtf_decode (bs : List (Fin 256)) : Except DecodeError (List Char) :=
  match pyDecodeUtf8 bs with
  | Except.ok s => Except.ok s
  | Except.error _ => pyDecodeLatin1 bs

/-- Python `str.split('\n')`: splits at every newline, keeping empty pieces;
the result is never the empty list. -/
def splitNl : List Char → List (List Char)
  | [] => [[]]
  | '\n' :: rest => [] :: splitNl rest
  | c :: rest =>
    match splitNl rest with
    | l :: ls => (c :: l) :: ls
    | [] => [[c]]

/-- RTF layout constants (lines 73-87): A4 portrait, one-inch margin,
fontsize 11, lineheight `11 * 1.5`. -/
def rtfFontsize : ℚ := 11

def rtfLineheight : ℚ := rtfFontsize * (3 / 2)

def rtfMargin : ℚ := 72

def rtfPageW : ℚ := 595

def rtfPageH : ℚ := 842

/-- `max_lines_per_page = int((page_height - 2 * margin) / lineheight)`;
the quotient is positive, so Python's truncation is the floor (value 42). -/
def rtfMaxLinesPerPage : Int := Rat.floor ((rtfPageH - 2 * rtfMargin) / rtfLineheight)

/-- Loop state of the RTF line layout: pages created so far, lines placed on
the current page, and the cursor's y position. -/
structure RtfSt where
  pages : Nat
  curLine : Nat
  y : ℚ
deriving DecidableEq

/-- The line-placement loop (lines 93-109): a new page is created when there
is none yet or the current page is full; a line is drawn only when it is
non-blank; the cursor and line counter always advance. -/
def rtfLayoutLoop : List (List Char) → RtfSt → RtfSt × List DrawCmd
  | [], st => (st, [])
  | line :: rest, st =>
    let st1 : RtfSt :=
      if st.pages = 0 ∨ rtfMaxLinesPerPage ≤ (st.curLine : Int) then
        ⟨st.pages + 1, 0, rtfMargin⟩
      else st
    let cmds :=
      if pyStripChars line ≠ [] then
        [DrawCmd.text (st1.pages - 1) rtfMargin (st1.y + rtfFontsize)
          (String.mk line) rtfFontsize false]
      else []
    let r := rtfLayoutLoop rest ⟨st1.pages, st1.curLine + 1, st1.y + rtfLineheight⟩
    (r.1, cmds ++ r.2)

/-- Layout of the extracted plain text (lines 82-113): split into lines, lay
them out, and fall back to a single blank page when zero pages were created
(`if len(doc) == 0: doc.new_page()`). -/
def rtf_layout (plain : List Char) : Nat × List DrawCmd :=
  let r := rtfLayoutLoop (splitNl plain) ⟨0, 0, 0⟩
  ((if r.1.pages = 0 then 1 else r.1.pages), r.2)

/-- Failure modes of `convert_rtf_to_pdf`. -/
inductive RtfError
  | decodeFailed (e : DecodeError)
  | regexFailed (e : RegexError)
deriving DecidableEq

/-- `convert_rtf_to_pdf` (lines 54-119): decode bytes, extract plain text
with `strip_rtf` (whose exceptions propagate — there is no handler around
it), lay out the lines.  The result pairs the page count with the issued
draw commands. -/
def convert_rtf_to_pdf (bs : List (Fin 256)) : Except RtfError (Nat × List DrawCmd) :=
  match rtf_decode bs with
  | Except.error e => Except.error (RtfError.decodeFailed e)
  | Except.ok text =>
    match strip_rtf text with
    | Except.error e => Except.error (RtfError.regexFailed e)
    | Except.ok plain => Except.ok (rtf_layout plain)

/-- ASCII bytes of a string (all sample inputs are ASCII). -/
def asciiBytes (s : String) : List (Fin 256) :=
  s.toList.map (fun c => (⟨c.toNat % 256, Nat.mod_lt _ (by norm_num)⟩ : Fin 256))

/-! ## Spreadsheet conversion (`excel-to-pdf.worker.js`, `convert_excel_to_pdf`)

Layout constants from lines 71-85: A4 landscape, margin 40, fontsize 9,
cell padding 4, `row_height = fontsize + cell_padding * 2`. -/

def excelPageW : ℚ := 842

def excelPageH : ℚ := 595

def excelMargin : ℚ := 40

def excelFontsize : ℚ := 9

def excelRowH : ℚ := excelFontsize + 4 * 2

def excelMaxY : ℚ := excelPageH - excelMargin

/-- A worksheet `<c>` cell as the XML parse delivers it to the value logic
of lines 136-156: the `t` attribute, the text of the `<v>` child (`none`
when the node is absent or its text is `None`), and the `<t>` run texts of
an inline-string `<is>` child when present. -/
structure XmlCell where
  t : Option String
  v : Option String
  isParts : Option (List String)
deriving DecidableEq

/-- Digits of a decimal literal, or `none` when empty or any character is
not an ASCII digit. -/
def digitsVal : List Char → Option Nat
  | [] => none
  | l =>
    if l.all Char.isDigit then
      some (l.foldl (fun a c => a * 10 + (c.toNat - 48)) 0)
    else none

/-- Python `int(str)` on the relevant domain: surrounding whitespace is
stripped, an optional sign precedes a non-empty digit run.  (Python also
accepts underscore separators and non-ASCII digits; no claim depends on
those.) -/
def py_int (s : String) : Option Int :=
  match pyStripChars s.toList with
  | '+' :: ds => (digitsVal ds).map (fun n => (n : Int))
  | '-' :: ds => (digitsVal ds).map (fun n => -(n : Int))
  | ds => (digitsVal ds).map (fun n => (n : Int))

/-- Python list indexing `l[idx]`: a negative index counts from the end, an
index out of range raises `IndexError`. -/
def pyListGet (l : List String) (idx : Int) : Except Unit String :=
  let i := if idx < 0 then idx + l.length else idx
  if 0 ≤ i then
    match l.get? i.toNat with
    | some s => Except.ok s
    | none => Except.error ()
  else Except.error ()

/-- Inline-string fallback of lines 148-155: when the `<is>` node exists its
run texts are joined with no separator, otherwise the value stays empty. -/
def inline_val : Option (List String) → String
  | some parts => String.join parts
  | none => ""

/-- Cell value extraction, lines 136-156.  For a shared-string cell
(`t="s"`), `int()` and the guarded table access run inside
`try: ... except: val = v_node.text`; note the `if idx < len(shared_strings)`
guard merely skips the assignment when the index is at or past the table's
length, leaving `val` as the empty string. -/
def cell_value (shared : List String) (t_attr : Option String)
    (v_text : Option String) (is_parts : Option (List String)) : String :=
  match v_text with
  | some vt =>
    if vt = "" then inline_val is_parts
    else if t_attr = some "s" then
      match py_int vt with
      | some idx =>
        if idx < (shared.length : Int) then
          match pyListGet shared idx with
          | Except.ok s => s
          | Except.error _ => vt
        else ""
      | none => vt
    else vt
  | none => inline_val is_parts

/-- Rows of one worksheet, lines 132-158: every cell is mapped through
`cell_value`; a row whose cells are all empty strings is dropped
(`if any(r_cells)`). -/
def parseRows (shared : List String) (raw : List (List XmlCell)) : List (List String) :=
  (raw.map (fun r => r.map (fun c => cell_value shared c.t c.v c.isParts))).filter
    (fun r => r.any (fun s => s != ""))

/-- Content-width estimate of one cell, lines 167-172: 10 units per
character above code point 255, else 5. -/
def cellWidthEst (s : String) : ℚ :=
  s.toList.foldl (fun w c => w + (if 255 < c.toNat then 10 else 5)) 0

/-- Raw column widths, lines 163-172: maximum estimated content width of
each column over the first 50 rows. -/
def colWidthsRaw (rows : List (List String)) (colCount : Nat) : List ℚ :=
  (List.range colCount).map (fun i =>
    (rows.take 50).foldl
      (fun w r =>
        match r.get? i with
        | some cell => max w (cellWidthEst cell)
        | none => w)
      0)

/-- Clamped column widths, line 175: `max(min(w, 200), 40)`. -/
def colWidths (rows : List (List String)) (colCount : Nat) : List ℚ :=
  (colWidthsRaw rows colCount).map (fun w => max (min w 200) 40)

/-- Rendering state of the spreadsheet converter: number of pages created
(the current page is the last one) and the cursor's y position. -/
structure PdfState where
  pages : Nat
  y : ℚ
deriving DecidableEq

/-- Cell loop of one row, lines 183-200: walk cells and widths in parallel,
stopping when the widths are exhausted (`if i >= len(col_widths): break`);
a non-empty cell becomes a text box at the cumulative column offset inside
the row's reserved band; `x` advances by the column width either way. -/
def excelRowCmds (pg : Nat) (y : ℚ) : List String → List ℚ → ℚ → List DrawCmd
  | [], _, _ => []
  | _ :: _, [], _ => []
  | c :: cs, w :: ws, x =>
    (if c = "" then []
     else [DrawCmd.textbox pg (x + 2) (y + 2) (x + w - 2) (y + excelRowH - 1) c excelFontsize])
      ++ excelRowCmds pg y cs ws (x + w)

/-- Row loop, lines 178-201, with the commands grouped per row: before each
row, a page break happens exactly when the row's reserved height would cross
the bottom margin; the row's cells are then all placed on the current page
and the cursor advances by the row height. -/
def excelRenderRowsG (widths : List ℚ) :
    List (List String) → PdfState → PdfState × List (List DrawCmd)
  | [], st => (st, [])
  | row :: rest, st =>
    let st1 : PdfState :=
      if excelMaxY < st.y + excelRowH then ⟨st.pages + 1, excelMargin⟩ else st
    let g := excelRowCmds (st1.pages - 1) st1.y row widths excelMargin
    let r := excelRenderRowsG widths rest ⟨st1.pages, st1.y + excelRowH⟩
    (r.1, g :: r.2)

/-- One worksheet, lines 110-204: a fresh page, the `Sheet k` header at the
margin, then — inside `try` — the sheet XML parse and the row rendering.  An
exception while processing the sheet (the realistic raise site is
`etree.fromstring` at line 130, after `y_position` was set to `margin + 20`)
is caught at lines 203-204 and becomes a red `Error: <message>` text at the
current cursor position; PyMuPDF's default fontsize 11 applies there.  A
sheet input of `Except.error msg` models a sheet whose XML parsing raised.  -/
def processSheet (shared : List String) (idx : Nat) (st : PdfState)
    (sheet : Except String (List (List XmlCell))) : PdfState × List DrawCmd :=
  let pg := st.pages
  let header := DrawCmd.text pg excelMargin excelMargin
    ("Sheet " ++ toString (idx + 1)) 12 false
  let y0 : ℚ := excelMargin + 20
  match sheet with
  | Except.error msg =>
    (⟨st.pages + 1, y0⟩,
      [header, DrawCmd.text pg excelMargin y0 ("Error: " ++ msg) 11 true])
  | Except.ok raw =>
    let rows := parseRows shared raw
    if rows.isEmpty then (⟨st.pages + 1, y0⟩, [header])
    else
      let colCount := rows.foldl (fun m r => max m r.length) 0
      let r := excelRenderRowsG (colWidths rows colCount) rows ⟨st.pages + 1, y0⟩
      (r.1, header :: r.2.flatten)

/-- Sheet loop, line 110: sheets in numeric-suffix order, with the running
sheet index. -/
def processSheets (shared : List String) :
    List (Except String (List (List XmlCell))) → Nat → PdfState →
      PdfState × List DrawCmd
  | [], _, st => (st, [])
  | s :: rest, idx, st =>
    let r1 := processSheet shared idx st s
    let r2 := processSheets shared rest (idx + 1) r1.1
    (r2.1, r1.2 ++ r2.2)

/-- Parsed input of the spreadsheet converter: the shared-string table (built
at lines 88-99; its own parse failure yields an empty table and is not
modelled further) and the worksheets in sorted order, each either parsed
rows of cells or the message of an exception its processing raises. -/
structure ExcelInput where
  shared : List String
  sheets : List (Except String (List (List XmlCell)))

/-- `ValueError("Invalid XLSX file")`, raised at line 67. -/
inductive XlsxError
  | invalidXlsx
deriving DecidableEq

/-- `convert_excel_to_pdf`, lines 58-210: a buffer on which `zipfile`
raises `BadZipFile` fails immediately with `ValueError("Invalid XLSX file")`
and nothing is drawn; otherwise every sheet is processed (each one isolated
by its own `try`/`except`) and, when zero pages were created, one blank page
is appended (`if len(pdf) == 0: pdf.new_page()`). -/
def convert_excel_to_pdf (input : Except BadZipFile ExcelInput) :
    Except XlsxError (Nat × List DrawCmd) :=
  match input with
  | Except.error _ => Except.error XlsxError.invalidXlsx
  | Except.ok inp =>
    let r := processSheets inp.shared inp.sheets 0 ⟨0, 0⟩
    Except.ok ((if r.1.pages = 0 then 1 else r.1.pages), r.2)

/-! ## Presentation conversion (`pptx-to-pdf.worker.js`, `convert_pptx_to_pdf`)

Only the zip validation, the per-slide page/`try` structure and the
zero-slide fallback are modelled; the shape-tree layout inside a slide's
`try` block is not inspected by any claim. -/

/-- `ValueError("Invalid PPTX file")`, raised at line 70. -/
inductive PptxError
  | invalidPptx
deriving DecidableEq

/-- One slide, lines 139-264: a fresh page, the gray slide-number text in
the bottom-right corner, then — inside `try` — the slide XML parse and shape
layout.  An exception there is caught at lines 263-264 and becomes a red
`Error: <message>` text at `(margin, margin)` in PyMuPDF's default fontsize
11.  A slide of `Except.ok ()` stands for a slide whose shape layout
succeeds (its commands are not modelled). -/
def processSlide (idx : Nat) (pages : Nat) (slide : Except String Unit) : List DrawCmd :=
  let numCmd := DrawCmd.text pages (excelPageW - excelMargin - 30) (excelPageH - 20)
    (toString (idx + 1)) 10 false
  match slide with
  | Except.error msg => [numCmd, DrawCmd.text pages 40 40 ("Error: " ++ msg) 11 true]
  | Except.ok _ => [numCmd]

/-- Slide loop, lines 139 onward. -/
def processSlides : List (Except String Unit) → Nat → Nat → Nat × List DrawCmd
  | [], _, pages => (pages, [])
  | s :: rest, idx, pages =>
    let cmds := processSlide idx pages s
    let r := processSlides rest (idx + 1) (pages + 1)
    (r.1, cmds ++ r.2)

/-- `convert_pptx_to_pdf`, lines 61-270: `BadZipFile` becomes
`ValueError("Invalid PPTX file")` with nothing drawn (lines 67-70); zero
slides still yield one blank page (lines 266-267). -/
def convert_pptx_to_pdf (input : Except BadZipFile (List (Except String Unit))) :
    Except PptxError (Nat × List DrawCmd) :=
  match input with
  | Except.error _ => Except.error PptxError.invalidPptx
  | Except.ok slides =>
    let r := processSlides slides 0 0
    Except.ok ((if r.1 = 0 then 1 else r.1), r.2)

/-! ## Word-processor conversion (`word-to-pdf.worker.js`, `convert_word_to_pdf`)

Layout constants from lines 70-75: A4 portrait, margin 72,
`text_width = page_width - 2 * margin`,
`max_image_height = page_height - 2 * margin`. -/

def wordPageW : ℚ := 595

def wordPageH : ℚ := 842

def wordMargin : ℚ := 72

def wordTextWidth : ℚ := wordPageW - 2 * wordMargin

def maxImageHeight : ℚ := wordPageH - 2 * wordMargin

/-- Layout state of the word converter: number of pages created so far
(`current_page` is the last one; `pages = 0` models `current_page is None`)
and the cursor's y position. -/
structure LayoutState where
  pages : Nat
  y : ℚ
deriving DecidableEq

/-- `new_page()`, lines 101-105: append a page and reset the cursor to the
top margin. -/
def word_new_page (st : LayoutState) : LayoutState :=
  ⟨st.pages + 1, wordMargin⟩

/-- `ensure_space(needed_height)`, lines 107-121, verbatim: create the first
page if none exists; a block taller than the full usable page height forces
at most one new page (only when the cursor is below the top margin) and then
returns; otherwise a new page starts exactly when the needed height would
cross the bottom margin. -/
def ensure_space (needed_height : ℚ) (st : LayoutState) : LayoutState :=
  let st := if st.pages = 0 then word_new_page st else st
  if wordPageH - 2 * wordMargin < needed_height then
    if wordMargin < st.y then word_new_page st else st
  else if wordPageH - wordMargin < st.y + needed_height then word_new_page st
  else st

/-- `emu_to_pt`, lines 123-124: EMU lengths to points. -/
def emu_to_pt (emu : Int) : ℚ := (emu : ℚ) / 12700

/-- Image scaling, lines 205-218: convert the extent to points, scale down
uniformly to the text width if too wide, then scale the result down
uniformly to the usable page height if still too tall. -/
def scale_image (cx cy : Int) : ℚ × ℚ :=
  let w := emu_to_pt cx
  let h := emu_to_pt cy
  let p1 := if wordTextWidth < w then (w * (wordTextWidth / w), h * (wordTextWidth / w))
    else (w, h)
  if maxImageHeight < p1.2 then (p1.1 * (maxImageHeight / p1.2), p1.2 * (maxImageHeight / p1.2))
  else p1

/-- Per-character width estimate of a candidate line, lines 152-154: each
character contributes `fontsize` when its code point exceeds 255, else
`fontsize * 0.5`. -/
def estWidth (fontsize : ℚ) (s : List Char) : ℚ :=
  s.foldl (fun w c => w + (if 255 < c.toNat then fontsize else fontsize * (1 / 2))) 0

/-- Python `str.split()` with no separator: split on whitespace runs,
dropping empty pieces. -/
def pySplitGo : List Char → List Char → List (List Char)
  | [], acc => if acc = [] then [] else [acc.reverse]
  | c :: rest, acc =>
    if isPySpace c then
      (if acc = [] then pySplitGo rest [] else acc.reverse :: pySplitGo rest [])
    else pySplitGo rest (c :: acc)

/-- Python `str.split()` with no separator. -/
def pySplit (l : List Char) : List (List Char) := pySplitGo l []

/-- Word loop of `flush_text`, lines 146-179: maintain a line buffer; when
appending the next word would push the estimated width past the text width
and the buffer is non-empty, draw the buffer as one line at the cursor (after
`ensure_space lineheight`), advance the cursor by the line height, and start
the buffer over with that word; otherwise append the word.  A final
non-empty buffer is drawn the same way. -/
def wrapLoop (fontsize lineheight : ℚ) : List (List Char) → List Char → LayoutState →
    LayoutState × List DrawCmd
  | [], buf, st =>
    if buf = [] then (st, [])
    else
      let st1 := ensure_space lineheight st
      (⟨st1.pages, st1.y + lineheight⟩,
        [DrawCmd.text (st1.pages - 1) wordMargin (st1.y + fontsize)
          (String.mk buf) fontsize false])
  | w :: ws, buf, st =>
    if estWidth fontsize (if buf = [] then w else buf ++ ' ' :: w) > wordTextWidth ∧
        buf ≠ [] then
      let st1 := ensure_space lineheight st
      let st2 : LayoutState := ⟨st1.pages, st1.y + lineheight⟩
      let r := wrapLoop fontsize lineheight ws w st2
      (r.1,
        DrawCmd.text (st1.pages - 1) wordMargin (st1.y + fontsize)
          (String.mk buf) fontsize false :: r.2)
    else wrapLoop fontsize lineheight ws (if buf = [] then w else buf ++ ' ' :: w) st

/-- `flush_text(text, fontsize)`, lines 142-179: empty text returns at once;
otherwise the text is split into words and wrapped greedily.  The enclosing
paragraph computes `lineheight = base_fontsize * 1.4` (line 137) and always
calls `flush_text` with that same `base_fontsize`, so the line height is
`fontsize * 1.4` here. -/
def flush_text (text : List Char) (fontsize : ℚ) (st : LayoutState) :
    LayoutState × List DrawCmd :=
  if text = [] then (st, [])
  else wrapLoop fontsize (fontsize * (7 / 5)) (pySplit text) [] st

/-- An inline drawing's image data: the `wp:extent` cx/cy pair when the
element carries one (`cx = cy = 1270000` is defaulted by the caller when it
is absent, lines 198-203). -/
structure WImage where
  extent : Option (Int × Int)

/-- A `w:drawing` inside a run: `none` when the `a:blip` child or its
`r:embed` attribute is missing (lines 190-193, silently skipped);
`some (Except.error msg)` when the relationship lookup, blob access or
extent parse inside the `try` of lines 194-227 raises (caught by
`except Exception: pass`); `some (Except.ok img)` when the image resolves. -/
structure WDrawing where
  embed : Option (Except String WImage)

/-- A paragraph run: its `w:drawing` elements and its text. -/
structure WRun where
  drawings : List WDrawing
  text : List Char

/-- One resolved drawing, lines 194-227: scale the extent, reserve vertical
space for the image plus padding, draw it centered in the text column, and
advance the cursor by the height plus 5. -/
def processDrawing (st : LayoutState) (d : WDrawing) : LayoutState × List DrawCmd :=
  match d.embed with
  | none => (st, [])
  | some (Except.error _) => (st, [])
  | some (Except.ok img) =>
    let cxcy := img.extent.getD (1270000, 1270000)
    let wh := scale_image cxcy.1 cxcy.2
    let st1 := ensure_space (wh.2 + 10) st
    let x0 := wordMargin + (wordTextWidth - wh.1) / 2
    (⟨st1.pages, st1.y + wh.2 + 5⟩,
      [DrawCmd.image (st1.pages - 1) x0 st1.y (x0 + wh.1) (st1.y + wh.2)])

/-- All drawings of one run, in order. -/
def processDrawings : List WDrawing → LayoutState → LayoutState × List DrawCmd
  | [], st => (st, [])
  | d :: ds, st =>
    let r1 := processDrawing st d
    let r2 := processDrawings ds r1.1
    (r2.1, r1.2 ++ r2.2)

/-- Accumulator of the run loop: layout state, commands so far, and the
pending `current_line_text`. -/
structure ParaAcc where
  st : LayoutState
  cmds : List DrawCmd
  clt : List Char

/-- One run, lines 181-231: when the run contains drawings, the pending text
is flushed first and each drawing processed; the run's text is then appended
to the pending line text. -/
def processRun (fontsize : ℚ) (acc : ParaAcc) (r : WRun) : ParaAcc :=
  let acc :=
    if !r.drawings.isEmpty then
      let fr := if acc.clt ≠ [] then flush_text acc.clt fontsize acc.st else (acc.st, [])
      let dr := processDrawings r.drawings fr.1
      ⟨dr.1, acc.cmds ++ fr.2 ++ dr.2, []⟩
    else acc
  ⟨acc.st, acc.cmds, acc.clt ++ r.text⟩

/-- The style → fontsize table of lines 88-91. -/
def heading_fontsizes : List (String × ℚ) :=
  [("Heading 1", 14), ("Heading 2", 13), ("Heading 3", 12),
   ("Title", 18), ("Subtitle", 14), ("Normal", 11)]

/-- One paragraph, lines 131-236: the style name selects the base fontsize
(default 11); runs are processed in order; remaining text is flushed; the
cursor then advances by half the base fontsize. -/
def processPara (st : LayoutState) (style : Option String) (runs : List WRun) :
    LayoutState × List DrawCmd :=
  let base := ((heading_fontsizes.lookup (style.getD "Normal")).getD 11)
  let acc := runs.foldl (processRun base) ⟨st, [], []⟩
  let fr := if acc.clt ≠ [] then flush_text acc.clt base acc.st else (acc.st, [])
  (⟨fr.1.pages, fr.1.y + base * (1 / 2)⟩, acc.cmds ++ fr.2)

/-- `row_height = 11 * 2`, line 248. -/
def wordRowH : ℚ := 11 * 2

/-- Cell loop of one table row, lines 261-293: a blank cell (after
stripping) only advances `x`; a non-blank cell becomes a text box anchored
at the row's initial y, reaching far below it (`initial_y + 1000`), at the
cumulative column offset. -/
def wordRowCells (pg : Nat) (initY : ℚ) (colW : ℚ) : List (List Char) → ℚ → List DrawCmd
  | [], _ => []
  | c :: cs, x =>
    (if pyStripChars c = [] then []
     else [DrawCmd.textbox pg (x + 2) (initY + 2) (x + colW - 2) (initY + 1000)
       (String.mk (pyStripChars c)) 10])
      ++ wordRowCells pg initY colW cs (x + colW)

/-- Table row loop, lines 250-295, with the commands grouped per row:
`ensure_space row_height` runs before each row, all of the row's cells are
placed on the then-current page, and the cursor advances by the fixed row
height. -/
def wordTableRowsG (colW : ℚ) :
    List (List (List Char)) → LayoutState → LayoutState × List (List DrawCmd)
  | [], st => (st, [])
  | row :: rest, st =>
    let st1 := ensure_space wordRowH st
    let g := wordRowCells (st1.pages - 1) st1.y colW row wordMargin
    let r := wordTableRowsG colW rest ⟨st1.pages, st1.y + wordRowH⟩
    (r.1, g :: r.2)

/-- One table, lines 238-300: uniform column width from the column count,
rows in order, then 10 points of table spacing. -/
def processTable (st : LayoutState) (colCount : Nat) (rows : List (List (List Char))) :
    LayoutState × List DrawCmd :=
  let colW : ℚ := if 0 < colCount then wordTextWidth / (colCount : ℚ) else 0
  let r := wordTableRowsG colW rows st
  (⟨r.1.pages, r.1.y + 10⟩, r.2.flatten)

/-- A body element, line 130's iteration: a paragraph (its style name and
runs) or a table (its column count and rows of cell texts). -/
inductive BodyElem
  | para (style : Option String) (runs : List WRun)
  | tbl (colCount : Nat) (rows : List (List (List Char)))

/-- Dispatch on one body element, lines 131 and 238. -/
def processElem (st : LayoutState) : BodyElem → LayoutState × List DrawCmd
  | BodyElem.para style runs => processPara st style runs
  | BodyElem.tbl colCount rows => processTable st colCount rows

/-- The body loop, line 130: there is no `try`/`except` around an element,
so an exception raised while processing one element (modelled as an
`Except.error msg` element) propagates and aborts the whole conversion. -/
def processElems : List (Except String BodyElem) → LayoutState →
    Except String (LayoutState × List DrawCmd)
  | [], st => Except.ok (st, [])
  | Except.error msg :: _, _ => Except.error msg
  | Except.ok e :: rest, st =>
    let r1 := processElem st e
    match processElems rest r1.1 with
    | Except.error msg => Except.error msg
    | Except.ok r2 => Except.ok (r2.1, r1.2 ++ r2.2)

/-- Failure modes of `convert_word_to_pdf`: `zipfile.BadZipFile` propagating
out of `Document(io.BytesIO(input_bytes))` for a non-zip buffer, or an
uncaught exception from processing one body element. -/
inductive WordError
  | badZip
  | unitRaised (msg : String)

/-- `convert_word_to_pdf`, lines 61-304: open the document (a corrupt buffer
raises out of the call with nothing drawn), create the first page, process
the body elements in document order, and return the serialized pages. -/
def convert_word_to_pdf (input : Except BadZipFile (List (Except String BodyElem))) :
    Except WordError (Nat × List DrawCmd) :=
  match input with
  | Except.error _ => Except.error WordError.badZip
  | Except.ok elems =>
    match processElems elems (word_new_page ⟨0, 0⟩) with
    | Except.error msg => Except.error (WordError.unitRaised msg)
    | Except.ok r => Except.ok (r.1.pages, r.2)

/-! ## Definitions written from the spec's words, for refinement claims -/

/-- Written from the spec's pagination rule (claim C6): "before emitting any
block that needs height `h`, if `cursor.y + h > pageHeight - margin`, start
a new page (reset `y = margin`) unless `h` itself exceeds the full usable
page height, in which case emit on the current page regardless but only
after starting a new page once if the cursor is not already at the top". -/
def ensure_space_spec (h : ℚ) (st : LayoutState) : LayoutState :=
  if wordPageH - wordMargin < st.y + h then
    if wordPageH - 2 * wordMargin < h then
      if wordMargin < st.y then word_new_page st else st
    else word_new_page st
  else st

/-- Written from the spec's greedy word-wrap rule (claim C9), as a pure
line-breaking function: for each candidate word, estimate the width of the
line that would result; when it exceeds the available width and the buffer
is non-empty, the buffer becomes one finished line and the word starts a new
buffer; a final non-empty buffer becomes the last line. -/
def wrapWords (fontsize maxWidth : ℚ) : List (List Char) → List Char → List (List Char)
  | [], buf => if buf = [] then [] else [buf]
  | w :: ws, buf =>
    if estWidth fontsize (if buf = [] then w else buf ++ ' ' :: w) > maxWidth ∧
        buf ≠ [] then
      buf :: wrapWords fontsize maxWidth ws w
    else wrapWords fontsize maxWidth ws (if buf = [] then w else buf ++ ' ' :: w)

/-- Written from the spec's words (claim C9): emit finished lines one after
another, each drawn at the cursor after reserving one line height, the
cursor advancing by the line height. -/
def emitLines (fontsize lineheight : ℚ) :
    List (List Char) → LayoutState → LayoutState × List DrawCmd
  | [], st => (st, [])
  | l :: ls, st =>
    let st1 := ensure_space lineheight st
    let r := emitLines fontsize lineheight ls ⟨st1.pages, st1.y + lineheight⟩
    (r.1,
      DrawCmd.text (st1.pages - 1) wordMargin (st1.y + fontsize)
        (String.mk l) fontsize false :: r.2)

/-! ## Concrete sample inputs -/

/-- The spec's rich-text scenario input, `"{\rtf1 Hello\par World}"`. -/
def rtfSampleChars : List Char := "\x7b\\rtf1 Hello\\par World\x7d".toList

/-! ## Claim theorems -/

/-- Claim C1, counterexample: in a one-entry shared-string table, the cell
`t="s"`, `v="1"` has index 1 ≥ length 1; the builder yields the empty
string, not the literal index text `"1"` the claim requires. -/
theorem shared_string_oob_counterexample :
    cell_value ["a"] (some "s") (some "1") none = "" ∧
    cell_value ["a"] (some "s") (some "1") none ≠ "1" := by
  constructor
  · rfl
  · decide

/-- Claim C1 (amended): a shared-string cell whose numeric index is at or
past the table's length yields the empty string — the bounds guard merely
skips the table access, leaving the initial empty value — and the conversion
does not fail (the extraction is total); the literal index text is the
fallback only when `int()` itself raises on a non-numeric index. -/
theorem shared_string_oob_blank (shared : List String) (v : String)
    (ip : Option (List String)) (idx : Int) (hparse : py_int v = some idx)
    (hoob : (shared.length : Int) ≤ idx) :
    cell_value shared (some "s") (some v) ip = "" := by
  have hv : ¬ v = "" := by
    intro h
    subst h
    rw [show py_int "" = none from rfl] at hparse
    exact Option.noConfusion hparse
  have hnl : ¬ idx < (shared.length : Int) := not_lt.mpr hoob
  simp [cell_value, hv, hparse, hnl]

/-- Claim C1, witness for the amended theorem at the counterexample input. -/
theorem shared_string_oob_blank_witness :
    cell_value ["a"] (some "s") (some "1") none = "" :=
  shared_string_oob_blank ["a"] "1" none 1 (by decide) (by decide)

/-- Claim C2, counterexample: on the scenario input
`"{\rtf1 Hello\par World}"`, `strip_rtf` does not return `"Hello\nWorld"` —
it raises re.error "bad escape (end of pattern)", because the third pass's
replacement string is a lone backslash, which Python's template compiler
rejects before any matching. -/
theorem strip_rtf_sample_counterexample :
    strip_rtf rtfSampleChars = Except.error RegexError.badEscape ∧
    strip_rtf rtfSampleChars ≠ Except.ok "Hello\nWorld".toList := by
  refine ⟨rfl, ?_⟩
  intro h
  rw [show strip_rtf rtfSampleChars = Except.error RegexError.badEscape from rfl] at h
  exact Except.noConfusion h

/-- Claim C2 (amended): the extraction pass as written fails with a
bad-escape regex error on every input (its escaped-backslash collapse uses a
lone-backslash replacement template); with that pass's replacement written
as the spec intends, the scenario input extracts to `"HelloWorld"` with no
newline — the control-word pass removes `\par` together with its trailing
space and nothing reinserts a line break. -/
theorem strip_rtf_amended_behavior :
    (∀ text, strip_rtf text = Except.error RegexError.badEscape) ∧
    strip_rtf_intended rtfSampleChars = Except.ok "HelloWorld".toList :=
  ⟨fun _ => rfl, rfl⟩

/-- Claim C4: a byte buffer on which the zip opener raises `BadZipFile`
makes each of the spreadsheet, presentation and word-processor conversions
fail immediately with its corrupt-archive error, with no draw command issued
and no output bytes produced. -/
theorem corrupt_archive_fatal (z : BadZipFile) :
    convert_excel_to_pdf (Except.error z) = Except.error XlsxError.invalidXlsx ∧
    convert_pptx_to_pdf (Except.error z) = Except.error PptxError.invalidPptx ∧
    convert_word_to_pdf (Except.error z) = Except.error WordError.badZip :=
  ⟨rfl, rfl, rfl⟩

/-- Claim C5: the rich-text converter evaluated at the structurally valid
zero-unit input `"{\rtf1}"`: instead of succeeding with one blank page, it
fails with the bad-escape regex error raised by `strip_rtf`'s third pass, so
the blank-page fallback at lines 112-113 is unreachable. -/
theorem rtf_zero_unit_input_raises :
    convert_rtf_to_pdf (asciiBytes "\x7b\\rtf1\x7d") =
      Except.error (RtfError.regexFailed RegexError.badEscape) := rfl

/-- Claim C10: the rich-text decode step never fails: when strict UTF-8
decoding succeeds its result is used, and on any UTF-8 failure the Latin-1
fallback maps every byte to the character at its code point, one character
per byte. -/
theorem rtf_decode_never_fails (bs : List (Fin 256)) :
    isOkB (rtf_decode bs) = true ∧
    (utf8Decode bs = none →
      rtf_decode bs = Except.ok (latin1Decode bs) ∧
      (latin1Decode bs).length = bs.length) := by
  constructor
  · unfold rtf_decode pyDecodeUtf8 pyDecodeLatin1
    cases h : utf8Decode bs <;> simp [isOkB]
  · intro h
    unfold rtf_decode pyDecodeUtf8 pyDecodeLatin1
    rw [h]
    exact ⟨rfl, by simp [latin1Decode]⟩

/-- Claim C10, witness: the single byte `0xFF` is invalid UTF-8, and the
decode step falls back to Latin-1 on it. -/
theorem rtf_decode_never_fails_witness :
    rtf_decode [(255 : Fin 256)] = Except.ok (latin1Decode [(255 : Fin 256)]) ∧
    (latin1Decode [(255 : Fin 256)]).length = [(255 : Fin 256)].length :=
  (rtf_decode_never_fails [(255 : Fin 256)]).2 rfl

/-- Claim C6: once a page exists, `ensure_space` implements the spec's
pagination rule exactly: a block needing height `h` with
`y + h > pageHeight - margin` starts a new page resetting `y` to the margin,
unless `h` exceeds the full usable page height, in which case the block
stays on the current page after at most one new page, taken exactly when the
cursor sits below the top margin. -/
theorem ensure_space_matches_spec (h : ℚ) (st : LayoutState) (hp : 1 ≤ st.pages) :
    ensure_space h st = ensure_space_spec h st := by
  have h0 : ¬ st.pages = 0 := by omega
  unfold ensure_space ensure_space_spec
  simp only [h0, if_false]
  split_ifs <;> first
    | rfl
    | (exfalso; linarith)

/-- Claim C6, witness at a concrete state with one page and the cursor at
100. -/
theorem ensure_space_matches_spec_witness :
    ensure_space 10 ⟨1, 100⟩ = ensure_space_spec 10 ⟨1, 100⟩ :=
  ensure_space_matches_spec 10 ⟨1, 100⟩ (by decide)

/-- The stateful word loop of `flush_text` draws exactly the lines that the
pure greedy wrap computes, in order. -/
theorem wrapLoop_emits_wrapWords (fontsize lineheight : ℚ) (ws : List (List Char)) :
    ∀ (buf : List Char) (st : LayoutState),
      wrapLoop fontsize lineheight ws buf st =
        emitLines fontsize lineheight (wrapWords fontsize wordTextWidth ws buf) st := by
  induction ws with
  | nil =>
    intro buf st
    by_cases hb : buf = []
    · simp [wrapLoop, wrapWords, emitLines, hb]
    · simp [wrapLoop, wrapWords, emitLines, hb]
  | cons w ws ih =>
    intro buf st
    by_cases hb : buf = []
    · subst hb
      simp [wrapLoop, wrapWords, ih]
    · by_cases hw : wordTextWidth < estWidth fontsize (buf ++ ' ' :: w)
      · simp [wrapLoop, wrapWords, emitLines, hb, hw, ih]
      · simp [wrapLoop, wrapWords, hb, hw, ih]

/-- Claim C9: `flush_text` is the greedy word-wrap of the claim: the text is
split into words; the per-character estimate (fontsize above code point 255,
half of it otherwise) decides, for each candidate word, whether the buffer
is flushed as one line — advancing the cursor by `fontsize * 1.4` — or the
word is appended; the remaining buffer is flushed at the end. -/
theorem flush_text_is_greedy_wrap (text : List Char) (fontsize : ℚ) (st : LayoutState) :
    flush_text text fontsize st =
      emitLines fontsize (fontsize * (7 / 5))
        (wrapWords fontsize wordTextWidth (pySplit text) []) st := by
  by_cases ht : text = []
  · simp [flush_text, ht, pySplit, pySplitGo, wrapWords, emitLines]
  · simp [flush_text, ht, wrapLoop_emits_wrapWords]

/-- Every draw command of one spreadsheet row's cell loop carries the page
the loop was entered on. -/
theorem excelRowCmds_page_eq (pg : Nat) (y : ℚ) :
    ∀ (cs : List String) (ws : List ℚ) (x : ℚ) (c : DrawCmd),
      c ∈ excelRowCmds pg y cs ws x → c.page = pg := by
  intro cs
  induction cs with
  | nil =>
    intro ws x c hc
    simp [excelRowCmds] at hc
  | cons a as ih =>
    intro ws x c hc
    cases ws with
    | nil => simp [excelRowCmds] at hc
    | cons w ws' =>
      by_cases ha : a = ""
      · rw [excelRowCmds, if_pos ha, List.nil_append] at hc
        exact ih ws' (x + w) c hc
      · rw [excelRowCmds, if_neg ha, List.singleton_append] at hc
        rcases List.mem_cons.mp hc with h | h
        · subst h; rfl
        · exact ih ws' (x + w) c h

/-- Every group produced by the spreadsheet row loop has all of its commands
on one page. -/
theorem excelRenderRowsG_groups_page (widths : List ℚ) :
    ∀ (rows : List (List String)) (st : PdfState) (g : List DrawCmd),
      g ∈ (excelRenderRowsG widths rows st).2 → ∃ pg, ∀ c ∈ g, c.page = pg := by
  intro rows
  induction rows with
  | nil =>
    intro st g hg
    simp [excelRenderRowsG] at hg
  | cons row rest ih =>
    intro st g hg
    rw [excelRenderRowsG] at hg
    rcases List.mem_cons.mp hg with h | h
    · exact ⟨_, fun c hc => excelRowCmds_page_eq _ _ _ _ _ c (h ▸ hc)⟩
    · exact ih _ g h

/-- Every draw command of one word-table row's cell loop carries the page
the loop was entered on. -/
theorem wordRowCells_page_eq (pg : Nat) (initY colW : ℚ) :
    ∀ (cs : List (List Char)) (x : ℚ) (c : DrawCmd),
      c ∈ wordRowCells pg initY colW cs x → c.page = pg := by
  intro cs
  induction cs with
  | nil =>
    intro x c hc
    simp [wordRowCells] at hc
  | cons a as ih =>
    intro x c hc
    by_cases ha : pyStripChars a = []
    · rw [wordRowCells, if_pos ha, List.nil_append] at hc
      exact ih (x + colW) c hc
    · rw [wordRowCells, if_neg ha, List.singleton_append] at hc
      rcases List.mem_cons.mp hc with h | h
      · subst h; rfl
      · exact ih (x + colW) c h

/-- Every group produced by the word-table row loop has all of its commands
on one page. -/
theorem wordTableRowsG_groups_page (colW : ℚ) :
    ∀ (rows : List (List (List Char))) (st : LayoutState) (g : List DrawCmd),
      g ∈ (wordTableRowsG colW rows st).2 → ∃ pg, ∀ c ∈ g, c.page = pg := by
  intro rows
  induction rows with
  | nil =>
    intro st g hg
    simp [wordTableRowsG] at hg
  | cons row rest ih =>
    intro st g hg
    rw [wordTableRowsG] at hg
    rcases List.mem_cons.mp hg with h | h
    · exact ⟨_, fun c hc => wordRowCells_page_eq _ _ _ _ _ c (h ▸ hc)⟩
    · exact ih _ g h

/-- Claim C7: row atomicity.  In both table layouts — the spreadsheet
renderer and the word-processor table renderer — any two draw commands
produced for the cells of one row carry the same page index: the page is
fixed before the row's cell loop (after the row-height page-break check
resp. `ensure_space row_height`) and never changes while the row's cells are
placed at their cumulative column offsets within the row's reserved
height. -/
theorem table_row_atomicity :
    (∀ (widths : List ℚ) (st : PdfState) (rows : List (List String))
      (g : List DrawCmd), g ∈ (excelRenderRowsG widths rows st).2 →
        ∀ c ∈ g, ∀ c' ∈ g, c.page = c'.page) ∧
    (∀ (colW : ℚ) (st : LayoutState) (rows : List (List (List Char)))
      (g : List DrawCmd), g ∈ (wordTableRowsG colW rows st).2 →
        ∀ c ∈ g, ∀ c' ∈ g, c.page = c'.page) := by
  constructor
  · intro widths st rows g hg c hc c' hc'
    obtain ⟨pg, hpg⟩ := excelRenderRowsG_groups_page widths rows st g hg
    rw [hpg c hc, hpg c' hc']
  · intro colW st rows g hg c hc c' hc'
    obtain ⟨pg, hpg⟩ := wordTableRowsG_groups_page colW rows st g hg
    rw [hpg c hc, hpg c' hc']

/-- Claim C7, witness: the two cell text boxes of the concrete spreadsheet
row `["a", "b"]` land on the same page. -/
theorem table_row_atomicity_witness :
    (DrawCmd.textbox 0 42 62 88 76 "a" 9).page =
      (DrawCmd.textbox 0 92 62 138 76 "b" 9).page :=
  table_row_atomicity.1 [50, 50] ⟨1, 60⟩ [["a", "b"]]
    [DrawCmd.textbox 0 42 62 88 76 "a" 9, DrawCmd.textbox 0 92 62 138 76 "b" 9]
    (by
      norm_num [excelRenderRowsG, excelRowCmds, excelMaxY, excelPageH,
        excelMargin, excelRowH, excelFontsize]
      decide)
    (DrawCmd.textbox 0 42 62 88 76 "a" 9) (by norm_num)
    (DrawCmd.textbox 0 92 62 138 76 "b" 9) (by norm_num)

/-- A sheet whose processing raises contributes its red error marker to the
sheet loop's output, and the loop continues past it. -/
theorem processSheets_error_marker (shared : List String) :
    ∀ (sheets : List (Except String (List (List XmlCell)))) (idx : Nat)
      (st : PdfState) (msg : String), Except.error msg ∈ sheets →
      ∃ pg y, DrawCmd.text pg excelMargin y ("Error: " ++ msg) 11 true ∈
        (processSheets shared sheets idx st).2 := by
  intro sheets
  induction sheets with
  | nil =>
    intro idx st msg hm
    simp at hm
  | cons s rest ih =>
    intro idx st msg hm
    rcases List.mem_cons.mp hm with h | h
    · refine ⟨st.pages, excelMargin + 20, ?_⟩
      rw [processSheets]
      rw [← h, processSheet]
      simp
    · obtain ⟨pg, y, hmem⟩ := ih (idx + 1) (processSheet shared idx st s).1 msg h
      refine ⟨pg, y, ?_⟩
      rw [processSheets]
      exact List.mem_append_right _ hmem

/-- Claim C3 (amended): in the spreadsheet converter, an exception while
processing one sheet is absorbed by that sheet's `try`/`except`: the whole
conversion still succeeds, and each failing sheet contributes a single red
inline `Error: <message>` text draw command at the current cursor position,
with processing continuing on the remaining sheets. -/
theorem excel_unit_error_isolated (shared : List String)
    (sheets : List (Except String (List (List XmlCell)))) :
    isOkB (convert_excel_to_pdf (Except.ok ⟨shared, sheets⟩)) = true ∧
    ∀ msg, Except.error msg ∈ sheets →
      ∃ pg y, DrawCmd.text pg excelMargin y ("Error: " ++ msg) 11 true ∈
        convCmds (convert_excel_to_pdf (Except.ok ⟨shared, sheets⟩)) := by
  refine ⟨rfl, ?_⟩
  intro msg hm
  exact processSheets_error_marker shared sheets 0 ⟨0, 0⟩ msg hm

/-- Claim C3, witness: a single failing sheet yields a successful conversion
containing its red error marker. -/
theorem excel_unit_error_isolated_witness :
    ∃ pg y, DrawCmd.text pg excelMargin y ("Error: " ++ "boom") 11 true ∈
      convCmds (convert_excel_to_pdf (Except.ok ⟨[], [Except.error "boom"]⟩)) :=
  (excel_unit_error_isolated [] [Except.error "boom"]).2 "boom" (by simp)

/-- Claim C3, counterexample: the word-processor converter has no per-unit
isolation — a body element whose processing raises aborts the whole
conversion with an error instead of an inline marker, so the claim's
universal isolation across converters fails. -/
theorem word_unit_exception_aborts :
    convert_word_to_pdf (Except.ok [Except.error "boom"]) =
      Except.error (WordError.unitRaised "boom") := rfl

/-- Claim C8: for positive source EMU dimensions, the two successive uniform
scale-downs preserve the aspect exactly — the output width times the input
height equals the output height times the input width — and the output never
exceeds the input in either dimension. -/
theorem image_aspect_preserved (cx cy : Int) (hx : 0 < cx) (hy : 0 < cy) :
    (scale_image cx cy).1 * emu_to_pt cy = (scale_image cx cy).2 * emu_to_pt cx ∧
    (scale_image cx cy).1 ≤ emu_to_pt cx ∧ (scale_image cx cy).2 ≤ emu_to_pt cy := by
  have hW : (0 : ℚ) < wordTextWidth := by
    norm_num [wordTextWidth, wordPageW, wordMargin]
  have hM : (0 : ℚ) < maxImageHeight := by
    norm_num [maxImageHeight, wordPageH, wordMargin]
  have hw : 0 < emu_to_pt cx := by
    have : (0 : ℚ) < (cx : ℚ) := by exact_mod_cast hx
    exact div_pos this (by norm_num)
  have hh : 0 < emu_to_pt cy := by
    have : (0 : ℚ) < (cy : ℚ) := by exact_mod_cast hy
    exact div_pos this (by norm_num)
  simp only [scale_image]
  by_cases h1 : wordTextWidth < emu_to_pt cx
  · have hs1 : emu_to_pt cx * (wordTextWidth / emu_to_pt cx) = wordTextWidth := by
      field_simp
    have hscaled : emu_to_pt cy * (wordTextWidth / emu_to_pt cx) ≤ emu_to_pt cy :=
      mul_le_of_le_one_right hh.le (le_of_lt ((div_lt_one hw).mpr h1))
    rw [if_pos h1]
    by_cases h2 : maxImageHeight <
        emu_to_pt cy * (wordTextWidth / emu_to_pt cx)
    · have hp : 0 < emu_to_pt cy * (wordTextWidth / emu_to_pt cx) :=
        mul_pos hh (div_pos hW hw)
      have heq : emu_to_pt cy * (wordTextWidth / emu_to_pt cx) *
          (maxImageHeight / (emu_to_pt cy * (wordTextWidth / emu_to_pt cx))) =
          maxImageHeight := by
        field_simp
        ring
      rw [if_pos h2]
      refine ⟨by ring, ?_, ?_⟩
      · rw [hs1]
        have hdiv : maxImageHeight /
            (emu_to_pt cy * (wordTextWidth / emu_to_pt cx)) ≤ 1 :=
          le_of_lt ((div_lt_one hp).mpr h2)
        calc wordTextWidth *
            (maxImageHeight / (emu_to_pt cy * (wordTextWidth / emu_to_pt cx))) ≤
            wordTextWidth * 1 := mul_le_mul_of_nonneg_left hdiv hW.le
          _ = wordTextWidth := mul_one _
          _ ≤ emu_to_pt cx := h1.le
      · rw [heq]
        linarith
    · rw [if_neg h2]
      exact ⟨by ring, by rw [hs1]; exact h1.le, hscaled⟩
  · rw [if_neg h1]
    by_cases h2 : maxImageHeight < emu_to_pt cy
    · have heq : emu_to_pt cy * (maxImageHeight / emu_to_pt cy) = maxImageHeight := by
        field_simp
      rw [if_pos h2]
      refine ⟨by ring, ?_, ?_⟩
      · exact mul_le_of_le_one_right hw.le (le_of_lt ((div_lt_one hh).mpr h2))
      · rw [heq]
        linarith
    · rw [if_neg h2]
      exact ⟨mul_comm _ _, le_refl _, le_refl _⟩

/-- Claim C8, witness at the default extent `1270000 × 1270000` EMU. -/
theorem image_aspect_preserved_witness :
    (scale_image 1270000 1270000).1 * emu_to_pt 1270000 =
      (scale_image 1270000 1270000).2 * emu_to_pt 1270000 ∧
    (scale_image 1270000 1270000).1 ≤ emu_to_pt 1270000 ∧
    (scale_image 1270000 1270000).2 ≤ emu_to_pt 1270000 :=
  image_aspect_preserved 1270000 1270000 (by norm_num) (by norm_num)

end PdfCraft
